import Mathlib

/-!
Verification of the recursive-lock core of `lib/lock/ulInt.h` (open-vm-tools).

The C code wraps one native non-recursive mutex (a `pthread_mutex_t` on
POSIX) with an acquisition counter `referenceCount` (a C `int`) and an
owner thread identity `nativeThreadID`.  We embed the POSIX debug build
(`vmx86_debug` true, so `ASSERT` and the `Panic` calls are active).

The native mutex is an external collaborator: its state lives outside the
portable core, and each top-level operation consults it only through the
integer result codes of `MXRecLockCreateInternal`,
`MXRecLockTryAcquireInternal`, `MXRecLockAcquireInternal` and
`MXRecLockReleaseInternal`.  We therefore pass those native result codes
as explicit arguments (`createErr`, `tryErr`, `blockErr`, `relErr`) and
record which native entry points were invoked in a `List NativeCall`
trace, so that "the native primitive is not touched" is a statement about
the trace.

`referenceCount` is modelled as `Int` (the C field is `int`).  The C
`uint32` return of `MXRecLockCount` and the `uint32` conversions in the
comparisons are the identity on every state consulted here (all
comparisons happen at values `0 ≤ n ≤ 16`, far below `2^31`), so
`MXRecLockCount` returns the `Int` directly.

A thread identity is a `Nat`; `MXRecLockSetNoOwner` memsets the
`pthread_t` (8 bytes on the modelled platform) with `0xFF`, i.e. writes
the sentinel `2 ^ 64 - 1`.
-/

abbrev MXThreadID := Nat

/-- The no-owner sentinel: `MXRecLockSetNoOwner` fills the 8-byte
`pthread_t` with `0xFF` bytes. -/
def MXUSER_NO_OWNER : MXThreadID := 2 ^ 64 - 1

/-- `EBUSY` of the modelled platform (Linux `errno` 16). -/
def EBUSY : Int := 16

/-- `#define MXUSER_MAX_REC_DEPTH 16` -/
def MXUSER_MAX_REC_DEPTH : Int := 16

/-- Debug build: `ASSERT` and the `vmx86_debug && ...` panics are active. -/
def vmx86_debug : Bool := true

/-- The portable part of `MXRecLock`: `referenceCount` (C `int`) and
`nativeThreadID` (the owner identity).  The `nativeLock` field is the
external native mutex, represented by the result-code arguments of the
operations below. -/
structure MXRecLock where
  referenceCount : Int
  nativeThreadID : MXThreadID
  deriving Repr, DecidableEq

/-- Which native-mutex entry points an operation invoked. -/
inductive NativeCall where
  | tryAcquire
  | acquire
  | release
  deriving Repr, DecidableEq

/-- Outcome of an operation in the debug build: normal return, a `Panic`
call, or a failed `ASSERT` (both of the latter terminate the process). -/
inductive Outcome (α : Type) where
  | ok : α → Outcome α
  | panicked : Outcome α
  | assertFailed : Outcome α
  deriving Repr, DecidableEq

/-- `MXRecLockIsOwner`: `pthread_equal(lock->nativeThreadID, pthread_self())`. -/
def MXRecLockIsOwner (lock : MXRecLock) (self : MXThreadID) : Bool :=
  lock.nativeThreadID == self

/-- `MXRecLockSetNoOwner`: memset the owner identity to the sentinel. -/
def MXRecLockSetNoOwner (lock : MXRecLock) : MXRecLock :=
  { lock with nativeThreadID := MXUSER_NO_OWNER }

/-- `MXRecLockSetOwner`: `lock->nativeThreadID = pthread_self()`. -/
def MXRecLockSetOwner (lock : MXRecLock) (self : MXThreadID) : MXRecLock :=
  { lock with nativeThreadID := self }

/-- `MXRecLockInit`: `success = (MXRecLockCreateInternal(lock) == 0)`;
on success `MXRecLockSetNoOwner` and `referenceCount = 0`; the input
`lock` stands for the (arbitrary) pre-initialization contents of the
structure.  `createErr` is the native create result. -/
def MXRecLockInit (createErr : Int) (lock : MXRecLock) : Bool × MXRecLock :=
  if createErr = 0 then
    (true, { MXRecLockSetNoOwner lock with referenceCount := 0 })
  else
    (false, lock)

/-- `MXRecLockCount`: `return lock->referenceCount;` (the C `uint32`
conversion is the identity on the consulted range). -/
def MXRecLockCount (lock : MXRecLock) : Int :=
  lock.referenceCount

/-- `MXRecLockIncCount`: if the count is 0 set the owner to the calling
thread, then `referenceCount += count`. -/
def MXRecLockIncCount (lock : MXRecLock) (count : Nat) (self : MXThreadID) : MXRecLock :=
  let lock := if MXRecLockCount lock = 0 then MXRecLockSetOwner lock self else lock
  { lock with referenceCount := lock.referenceCount + count }

/-- `MXRecLockAcquire` (debug build).  `tryErr` is the native
`MXRecLockTryAcquireInternal` result and `blockErr` the native
`MXRecLockAcquireInternal` result, consulted only when the corresponding
native call is made; returns the `contended` flag, the new lock state and
the trace of native calls. -/
def MXRecLockAcquire (tryErr blockErr : Int) (self : MXThreadID) (lock : MXRecLock) :
    Outcome (Bool × MXRecLock × List NativeCall) :=
  if MXRecLockCount lock ≠ 0 ∧ MXRecLockIsOwner lock self = true then
    -- re-entrant path: ASSERT((count > 0) && (count < MXUSER_MAX_REC_DEPTH))
    if ¬(0 < MXRecLockCount lock ∧ MXRecLockCount lock < MXUSER_MAX_REC_DEPTH) then
      Outcome.assertFailed
    else
      Outcome.ok (false, MXRecLockIncCount lock 1 self, [])
  else
    if tryErr = 0 then
      -- try-acquire succeeded; ASSERT(lock->referenceCount == 0)
      if lock.referenceCount ≠ 0 then Outcome.assertFailed
      else Outcome.ok (false, MXRecLockIncCount lock 1 self, [NativeCall.tryAcquire])
    else if vmx86_debug = true ∧ tryErr ≠ EBUSY then
      -- Panic("MXRecLockTryAcquireInternal returned %d")
      Outcome.panicked
    else
      -- err = MXRecLockAcquireInternal(lock); contended = TRUE
      if vmx86_debug = true ∧ blockErr ≠ 0 then
        -- Panic("MXRecLockAcquireInternal returned %d")
        Outcome.panicked
      else if lock.referenceCount ≠ 0 then Outcome.assertFailed
      else
        Outcome.ok (true, MXRecLockIncCount lock 1 self,
          [NativeCall.tryAcquire, NativeCall.acquire])

/-- `MXRecLockTryAcquire` (debug build): one native try-acquire whose
result is `tryErr`; on success increment and
`ASSERT((count > 0) && (count < MXUSER_MAX_REC_DEPTH))` on the new count;
on `EBUSY` a clean `FALSE`; any other result panics. -/
def MXRecLockTryAcquire (tryErr : Int) (self : MXThreadID) (lock : MXRecLock) :
    Outcome (Bool × MXRecLock × List NativeCall) :=
  if tryErr = 0 then
    let lock' := MXRecLockIncCount lock 1 self
    if ¬(0 < MXRecLockCount lock' ∧ MXRecLockCount lock' < MXUSER_MAX_REC_DEPTH) then
      Outcome.assertFailed
    else
      Outcome.ok (true, lock', [NativeCall.tryAcquire])
  else if vmx86_debug = true ∧ tryErr ≠ EBUSY then
    Outcome.panicked
  else
    Outcome.ok (false, lock, [NativeCall.tryAcquire])

/-- `MXRecLockDecCount`: `ASSERT(count <= lock->referenceCount)`;
`referenceCount -= count`; if the count reached 0, `MXRecLockSetNoOwner`. -/
def MXRecLockDecCount (lock : MXRecLock) (count : Nat) : Outcome MXRecLock :=
  if ¬((count : Int) ≤ lock.referenceCount) then Outcome.assertFailed
  else
    let lock' : MXRecLock := { lock with referenceCount := lock.referenceCount - count }
    if MXRecLockCount lock' = 0 then Outcome.ok (MXRecLockSetNoOwner lock')
    else Outcome.ok lock'

/-- `MXRecLockRelease` (debug build):
`ASSERT((count > 0) && (count < MXUSER_MAX_REC_DEPTH))`;
`MXRecLockDecCount(lock, 1)`; if the count reached 0, invoke the native
release (result `relErr`, panicking when nonzero). -/
def MXRecLockRelease (relErr : Int) (lock : MXRecLock) :
    Outcome (MXRecLock × List NativeCall) :=
  if ¬(0 < MXRecLockCount lock ∧ MXRecLockCount lock < MXUSER_MAX_REC_DEPTH) then
    Outcome.assertFailed
  else
    match MXRecLockDecCount lock 1 with
    | Outcome.ok lock' =>
        if MXRecLockCount lock' = 0 then
          if vmx86_debug = true ∧ relErr ≠ 0 then Outcome.panicked
          else Outcome.ok (lock', [NativeCall.release])
        else
          Outcome.ok (lock', [])
    | Outcome.panicked => Outcome.panicked
    | Outcome.assertFailed => Outcome.assertFailed

/-- The lock state `MXRecLockInit` produces on success. -/
def initLock : MXRecLock :=
  { referenceCount := 0, nativeThreadID := MXUSER_NO_OWNER }

/-- `n` further acquisitions by thread `self`, each with hostile native
results (`tryErr = EBUSY`, `blockErr = 1`): if any of them consulted the
native mutex it would either report contended or panic, so an `ok`
outcome with an empty trace certifies that every one of these calls took
the re-entrant path. -/
def acquireLoop (self : MXThreadID) : Nat → MXRecLock → Outcome (MXRecLock × List NativeCall)
  | 0, lock => Outcome.ok (lock, [])
  | n + 1, lock =>
    match MXRecLockAcquire EBUSY 1 self lock with
    | Outcome.ok (_, lock', calls) =>
      match acquireLoop self n lock' with
      | Outcome.ok (lock'', calls') => Outcome.ok (lock'', calls ++ calls')
      | Outcome.panicked => Outcome.panicked
      | Outcome.assertFailed => Outcome.assertFailed
    | Outcome.panicked => Outcome.panicked
    | Outcome.assertFailed => Outcome.assertFailed

/-- `n` releases with a well-behaved native release (`relErr = 0`). -/
def releaseLoop : Nat → MXRecLock → Outcome (MXRecLock × List NativeCall)
  | 0, lock => Outcome.ok (lock, [])
  | n + 1, lock =>
    match MXRecLockRelease 0 lock with
    | Outcome.ok (lock', calls) =>
      match releaseLoop n lock' with
      | Outcome.ok (lock'', calls') => Outcome.ok (lock'', calls ++ calls')
      | Outcome.panicked => Outcome.panicked
      | Outcome.assertFailed => Outcome.assertFailed
    | Outcome.panicked => Outcome.panicked
    | Outcome.assertFailed => Outcome.assertFailed

/-- `MXUserBasicStats` of `ulInt.h` (the `timeSquaredSum` field is a C
`double`; the claims below never consult it, and it is modelled as the
exact sum of squares). -/
structure MXUserBasicStats where
  numSamples : Nat
  minTime : Nat
  maxTime : Nat
  timeSum : Nat
  timeSquaredSum : Nat
  deriving Repr, DecidableEq

/-- `MXUserAcquisitionStats` of `ulInt.h`. -/
structure MXUserAcquisitionStats where
  numAttempts : Nat
  numSuccesses : Nat
  numSuccessesContended : Nat
  successContentionTime : Nat
  totalContentionTime : Nat
  basicStats : MXUserBasicStats
  deriving Repr, DecidableEq

/-- Modelled from the spec: `MXUserBasicStatsSample` is declared in
`ulInt.h` but implemented outside the provided sources; the spec gives
the online update
`numSamples += 1; timeSum += v; timeSquaredSum += v*v;
minTime = min(minTime, v); maxTime = max(maxTime, v)`. -/
def MXUserBasicStatsSample (stats : MXUserBasicStats) (value : Nat) : MXUserBasicStats :=
  { stats with
    numSamples := stats.numSamples + 1
    timeSum := stats.timeSum + value
    timeSquaredSum := stats.timeSquaredSum + value * value
    minTime := min stats.minTime value
    maxTime := max stats.maxTime value }

/-- Modelled from the spec: `MXUserAcquisitionSample` is declared in
`ulInt.h` but implemented outside the provided sources; the spec says it
increments `numAttempts`; if acquired, increments `numSuccesses` and
folds `elapsedTime` into the embedded BasicStats; if also contended,
increments `numSuccessesContended` and adds `elapsedTime` to
`successContentionTime`; and `totalContentionTime` accumulates
`elapsedTime` for every attempt. -/
def MXUserAcquisitionSample (stats : MXUserAcquisitionStats)
    (wasAcquired wasContended : Bool) (elapsedTime : Nat) : MXUserAcquisitionStats :=
  let stats := { stats with numAttempts := stats.numAttempts + 1 }
  let stats :=
    if wasAcquired then
      let stats := { stats with
        numSuccesses := stats.numSuccesses + 1
        basicStats := MXUserBasicStatsSample stats.basicStats elapsedTime }
      if wasContended then
        { stats with
          numSuccessesContended := stats.numSuccessesContended + 1
          successContentionTime := stats.successContentionTime + elapsedTime }
      else stats
    else stats
  { stats with totalContentionTime := stats.totalContentionTime + elapsedTime }

/-- The zeroed stats `MXUserAcquisitionStatsSetUp` starts from. -/
def MXUserAcquisitionStatsSetUp : MXUserAcquisitionStats :=
  { numAttempts := 0, numSuccesses := 0, numSuccessesContended := 0
    successContentionTime := 0, totalContentionTime := 0
    basicStats :=
      { numSamples := 0, minTime := 0, maxTime := 0, timeSum := 0, timeSquaredSum := 0 } }

/-- Fold a sequence of `(wasAcquired, wasContended, elapsedTime)` samples
through `MXUserAcquisitionSample`. -/
def runSamples (stats : MXUserAcquisitionStats) :
    List (Bool × Bool × Nat) → MXUserAcquisitionStats
  | [] => stats
  | (a, c, t) :: rest => runSamples (MXUserAcquisitionSample stats a c t) rest

/-- The conservation inequalities of the acquisition statistics. -/
def statsInv (s : MXUserAcquisitionStats) : Prop :=
  s.numSuccesses ≤ s.numAttempts ∧
  s.numSuccessesContended ≤ s.numSuccesses ∧
  s.successContentionTime ≤ s.totalContentionTime

/-- The re-entrance scenario: starting from a freshly initialized lock,
thread `self` acquires once (free native mutex, so the native try-acquire
returns 0), then `n - 1` more times with hostile native results, then
releases `n` times. -/
def recScenario (self : MXThreadID) (n : Nat) : Outcome (MXRecLock × List NativeCall) :=
  match MXRecLockAcquire 0 1 self initLock with
  | Outcome.ok (_, lock, calls) =>
    match acquireLoop self (n - 1) lock with
    | Outcome.ok (lock', calls') =>
      match releaseLoop n lock' with
      | Outcome.ok (lock'', calls'') => Outcome.ok (lock'', calls ++ calls' ++ calls'')
      | Outcome.panicked => Outcome.panicked
      | Outcome.assertFailed => Outcome.assertFailed
    | Outcome.panicked => Outcome.panicked
    | Outcome.assertFailed => Outcome.assertFailed
  | Outcome.panicked => Outcome.panicked
  | Outcome.assertFailed => Outcome.assertFailed

/-! ### Helper lemmas -/

theorem isOwner_iff (lock : MXRecLock) (self : MXThreadID) :
    MXRecLockIsOwner lock self = true ↔ lock.nativeThreadID = self := by
  simp [MXRecLockIsOwner]

theorem incCount_of_pos (lock : MXRecLock) (c : Nat) (self : MXThreadID)
    (h : MXRecLockCount lock ≠ 0) :
    MXRecLockIncCount lock c self
      = { lock with referenceCount := lock.referenceCount + c } := by
  simp [MXRecLockIncCount, h]

theorem incCount_of_zero (lock : MXRecLock) (c : Nat) (self : MXThreadID)
    (h : MXRecLockCount lock = 0) :
    MXRecLockIncCount lock c self
      = { referenceCount := (c : Int), nativeThreadID := self } := by
  have h0 : lock.referenceCount = 0 := h
  simp [MXRecLockIncCount, MXRecLockCount, h0, MXRecLockSetOwner]

theorem acquire_reentrant (tryErr blockErr : Int) (self : MXThreadID) (lock : MXRecLock)
    (h1 : 0 < MXRecLockCount lock) (h2 : MXRecLockCount lock < MXUSER_MAX_REC_DEPTH)
    (ho : lock.nativeThreadID = self) :
    MXRecLockAcquire tryErr blockErr self lock
      = Outcome.ok (false, { lock with referenceCount := lock.referenceCount + 1 }, []) := by
  have hne : MXRecLockCount lock ≠ 0 := h1.ne'
  unfold MXRecLockAcquire
  rw [if_pos ⟨hne, (isOwner_iff lock self).mpr ho⟩,
    if_neg (not_not_intro ⟨h1, h2⟩), incCount_of_pos lock 1 self hne]
  norm_num

theorem acquire_free_try_ok (tryErr blockErr : Int) (self : MXThreadID) (lock : MXRecLock)
    (hc : MXRecLockCount lock = 0) (ht : tryErr = 0) :
    MXRecLockAcquire tryErr blockErr self lock
      = Outcome.ok (false, { referenceCount := 1, nativeThreadID := self },
          [NativeCall.tryAcquire]) := by
  have h0 : lock.referenceCount = 0 := hc
  unfold MXRecLockAcquire
  rw [if_neg (by simp [MXRecLockCount, h0]), if_pos ht, if_neg (not_not_intro h0),
    incCount_of_zero lock 1 self hc]
  norm_num

theorem acquire_free_try_busy (tryErr blockErr : Int) (self : MXThreadID) (lock : MXRecLock)
    (hc : MXRecLockCount lock = 0) (ht : tryErr = EBUSY) (hb : blockErr = 0) :
    MXRecLockAcquire tryErr blockErr self lock
      = Outcome.ok (true, { referenceCount := 1, nativeThreadID := self },
          [NativeCall.tryAcquire, NativeCall.acquire]) := by
  have h0 : lock.referenceCount = 0 := hc
  have htne : tryErr ≠ 0 := by rw [ht]; decide
  unfold MXRecLockAcquire
  rw [if_neg (by simp [MXRecLockCount, h0]), if_neg htne, if_neg (by simp [ht]),
    if_neg (by simp [hb]), if_neg (not_not_intro h0),
    incCount_of_zero lock 1 self hc]
  norm_num

theorem acquire_other_err (tryErr blockErr : Int) (self : MXThreadID) (lock : MXRecLock)
    (hpath : ¬(MXRecLockCount lock ≠ 0 ∧ lock.nativeThreadID = self))
    (ht0 : tryErr ≠ 0) (htb : tryErr ≠ EBUSY) :
    MXRecLockAcquire tryErr blockErr self lock = Outcome.panicked := by
  unfold MXRecLockAcquire
  rw [if_neg (by simpa [isOwner_iff] using hpath), if_neg ht0,
    if_pos ⟨rfl, htb⟩]

theorem tryAcquire_native_ok (tryErr : Int) (self : MXThreadID) (lock : MXRecLock)
    (ht : tryErr = 0) (h0 : 0 ≤ MXRecLockCount lock)
    (hlt : MXRecLockCount lock + 1 < MXUSER_MAX_REC_DEPTH) :
    MXRecLockTryAcquire tryErr self lock
      = Outcome.ok (true, MXRecLockIncCount lock 1 self, [NativeCall.tryAcquire]) := by
  have hcnt : MXRecLockCount (MXRecLockIncCount lock 1 self)
      = MXRecLockCount lock + 1 := by
    by_cases hz : MXRecLockCount lock = 0
    · rw [incCount_of_zero lock 1 self hz]
      simp [MXRecLockCount] at hz ⊢
      omega
    · rw [incCount_of_pos lock 1 self hz]
      simp [MXRecLockCount]
  unfold MXRecLockTryAcquire
  rw [if_pos ht]
  simp only [hcnt]
  rw [if_neg (not_not_intro ⟨by omega, hlt⟩)]

theorem tryAcquire_native_busy (tryErr : Int) (self : MXThreadID) (lock : MXRecLock)
    (ht : tryErr = EBUSY) :
    MXRecLockTryAcquire tryErr self lock
      = Outcome.ok (false, lock, [NativeCall.tryAcquire]) := by
  have htne : tryErr ≠ 0 := by rw [ht]; decide
  unfold MXRecLockTryAcquire
  rw [if_neg htne, if_neg (by simp [ht])]

theorem tryAcquire_native_err (tryErr : Int) (self : MXThreadID) (lock : MXRecLock)
    (ht0 : tryErr ≠ 0) (htb : tryErr ≠ EBUSY) :
    MXRecLockTryAcquire tryErr self lock = Outcome.panicked := by
  unfold MXRecLockTryAcquire
  rw [if_neg ht0, if_pos ⟨rfl, htb⟩]

theorem release_to_zero (relErr : Int) (lock : MXRecLock)
    (hc : MXRecLockCount lock = 1) (hr : relErr = 0) :
    MXRecLockRelease relErr lock
      = Outcome.ok ({ referenceCount := 0, nativeThreadID := MXUSER_NO_OWNER },
          [NativeCall.release]) := by
  have h1 : lock.referenceCount = 1 := hc
  subst hr
  unfold MXRecLockRelease MXRecLockDecCount
  norm_num [MXRecLockCount, h1, MXRecLockSetNoOwner, MXUSER_MAX_REC_DEPTH, vmx86_debug]

theorem release_stays_positive (relErr : Int) (lock : MXRecLock)
    (h1 : 1 < MXRecLockCount lock) (h2 : MXRecLockCount lock < MXUSER_MAX_REC_DEPTH) :
    MXRecLockRelease relErr lock
      = Outcome.ok ({ lock with referenceCount := lock.referenceCount - 1 }, []) := by
  have hc : 1 < lock.referenceCount := h1
  have h16 : lock.referenceCount < 16 := h2
  unfold MXRecLockRelease MXRecLockDecCount
  rw [if_neg (not_not_intro ⟨by simp [MXRecLockCount]; omega, h2⟩),
    if_neg (by simp; omega)]
  simp only [MXRecLockCount]
  have hne : ¬(lock.referenceCount - 1 = 0) := by omega
  norm_num [hne]

/-! ### Claim theorems -/

/-- Claim C1: for every call to `MXRecLockAcquire`, if `referenceCount > 0`
and the calling thread is the stored owner, the native primitive is not
touched (empty trace) and the call returns not-contended; otherwise a
native try-acquire is attempted: success means not-contended, `EBUSY`
means a blocking native acquire is performed and the call returns
contended, and any other native result panics.  The re-entrant case
carries the path's own assertion bound `count < MXUSER_MAX_REC_DEPTH`,
and the native cases are stated for a free lock (`count = 0`, the state
in which the native mutex can answer). -/
theorem MXRecLockAcquire_contract (tryErr blockErr : Int) (self : MXThreadID)
    (lock : MXRecLock) :
    (0 < MXRecLockCount lock → MXRecLockCount lock < MXUSER_MAX_REC_DEPTH →
      lock.nativeThreadID = self →
      MXRecLockAcquire tryErr blockErr self lock
        = Outcome.ok (false, { lock with referenceCount := lock.referenceCount + 1 }, []))
  ∧ (MXRecLockCount lock = 0 → tryErr = 0 →
      MXRecLockAcquire tryErr blockErr self lock
        = Outcome.ok (false, { referenceCount := 1, nativeThreadID := self },
            [NativeCall.tryAcquire]))
  ∧ (MXRecLockCount lock = 0 → tryErr = EBUSY → blockErr = 0 →
      MXRecLockAcquire tryErr blockErr self lock
        = Outcome.ok (true, { referenceCount := 1, nativeThreadID := self },
            [NativeCall.tryAcquire, NativeCall.acquire]))
  ∧ (¬(MXRecLockCount lock ≠ 0 ∧ lock.nativeThreadID = self) →
      tryErr ≠ 0 → tryErr ≠ EBUSY →
      MXRecLockAcquire tryErr blockErr self lock = Outcome.panicked) :=
  ⟨fun h1 h2 ho => acquire_reentrant tryErr blockErr self lock h1 h2 ho,
   fun hc ht => acquire_free_try_ok tryErr blockErr self lock hc ht,
   fun hc ht hb => acquire_free_try_busy tryErr blockErr self lock hc ht hb,
   fun hp ht0 htb => acquire_other_err tryErr blockErr self lock hp ht0 htb⟩

/-- Witness for C1: all four cases of the contract at concrete inputs. -/
theorem MXRecLockAcquire_contract_wit :
    (MXRecLockAcquire 7 0 5 { referenceCount := 2, nativeThreadID := 5 }
       = Outcome.ok (false, { referenceCount := 3, nativeThreadID := 5 }, []))
  ∧ (MXRecLockAcquire 0 0 5 initLock
       = Outcome.ok (false, { referenceCount := 1, nativeThreadID := 5 },
           [NativeCall.tryAcquire]))
  ∧ (MXRecLockAcquire 16 0 5 initLock
       = Outcome.ok (true, { referenceCount := 1, nativeThreadID := 5 },
           [NativeCall.tryAcquire, NativeCall.acquire]))
  ∧ (MXRecLockAcquire 22 0 5 initLock = Outcome.panicked) :=
  ⟨(MXRecLockAcquire_contract 7 0 5 { referenceCount := 2, nativeThreadID := 5 }).1
      (by decide) (by decide) rfl,
   (MXRecLockAcquire_contract 0 0 5 initLock).2.1 rfl rfl,
   (MXRecLockAcquire_contract 16 0 5 initLock).2.2.1 rfl rfl rfl,
   (MXRecLockAcquire_contract 22 0 5 initLock).2.2.2 (by decide) (by decide) (by decide)⟩

/-- Claim C5: under the precondition `0 < referenceCount < MXUSER_MAX_REC_DEPTH`,
`MXRecLockRelease` decrements the count by exactly one; exactly when it
reaches 0 the owner becomes the no-owner sentinel and the native release
is invoked; when it stays positive the native mutex is untouched (empty
trace) and the owner is unchanged. -/
theorem MXRecLockRelease_contract (relErr : Int) (lock : MXRecLock)
    (_h1 : 0 < MXRecLockCount lock) (h2 : MXRecLockCount lock < MXUSER_MAX_REC_DEPTH) :
    (MXRecLockCount lock = 1 → relErr = 0 →
      MXRecLockRelease relErr lock
        = Outcome.ok
            ({ referenceCount := lock.referenceCount - 1, nativeThreadID := MXUSER_NO_OWNER },
             [NativeCall.release]))
  ∧ (1 < MXRecLockCount lock →
      MXRecLockRelease relErr lock
        = Outcome.ok ({ lock with referenceCount := lock.referenceCount - 1 }, [])) := by
  constructor
  · intro hc hr
    have hz : lock.referenceCount - 1 = 0 := by
      have : lock.referenceCount = 1 := hc
      omega
    rw [release_to_zero relErr lock hc hr, hz]
  · intro hgt
    exact release_stays_positive relErr lock hgt h2

/-- Witness for C5: both cases of the release contract at concrete inputs. -/
theorem MXRecLockRelease_contract_wit :
    (MXRecLockRelease 0 { referenceCount := 1, nativeThreadID := 9 }
       = Outcome.ok ({ referenceCount := 0, nativeThreadID := MXUSER_NO_OWNER },
           [NativeCall.release]))
  ∧ (MXRecLockRelease 0 { referenceCount := 3, nativeThreadID := 9 }
       = Outcome.ok ({ referenceCount := 2, nativeThreadID := 9 }, [])) :=
  ⟨(MXRecLockRelease_contract 0 { referenceCount := 1, nativeThreadID := 9 }
      (by decide) (by decide)).1 rfl rfl,
   (MXRecLockRelease_contract 0 { referenceCount := 3, nativeThreadID := 9 }
      (by decide) (by decide)).2 (by decide)⟩

/-- Claim C6: `MXRecLockTryAcquire` never blocks (its only native call is
the try-acquire) and returns whether acquisition succeeded: native
success increments the count by one (setting the owner to the caller
when the count was 0, leaving it unchanged otherwise) and returns
`true`; `EBUSY` returns `false` with the lock state exactly unchanged
and no fatal action; any other native result panics.  The success case
carries the path's own post-increment assertion bound. -/
theorem MXRecLockTryAcquire_contract (tryErr : Int) (self : MXThreadID) (lock : MXRecLock) :
    (tryErr = 0 → 0 ≤ MXRecLockCount lock →
      MXRecLockCount lock + 1 < MXUSER_MAX_REC_DEPTH →
      MXRecLockTryAcquire tryErr self lock
        = Outcome.ok (true, MXRecLockIncCount lock 1 self, [NativeCall.tryAcquire])
      ∧ (MXRecLockIncCount lock 1 self).referenceCount = lock.referenceCount + 1
      ∧ (MXRecLockCount lock = 0 → (MXRecLockIncCount lock 1 self).nativeThreadID = self)
      ∧ (MXRecLockCount lock ≠ 0 →
          (MXRecLockIncCount lock 1 self).nativeThreadID = lock.nativeThreadID))
  ∧ (tryErr = EBUSY →
      MXRecLockTryAcquire tryErr self lock
        = Outcome.ok (false, lock, [NativeCall.tryAcquire]))
  ∧ (tryErr ≠ 0 → tryErr ≠ EBUSY →
      MXRecLockTryAcquire tryErr self lock = Outcome.panicked) := by
  refine ⟨?_, fun ht => tryAcquire_native_busy tryErr self lock ht,
    fun ha hb => tryAcquire_native_err tryErr self lock ha hb⟩
  intro ht h0 hlt
  refine ⟨tryAcquire_native_ok tryErr self lock ht h0 hlt, ?_, ?_, ?_⟩
  · by_cases hz : MXRecLockCount lock = 0
    · rw [incCount_of_zero lock 1 self hz]
      have hr0 : lock.referenceCount = 0 := hz
      simp [hr0]
    · rw [incCount_of_pos lock 1 self hz]
      norm_num
  · intro hz
    rw [incCount_of_zero lock 1 self hz]
  · intro hz
    rw [incCount_of_pos lock 1 self hz]

/-- Witness for C6: all three cases of the try-acquire contract at
concrete inputs. -/
theorem MXRecLockTryAcquire_contract_wit :
    (MXRecLockTryAcquire 0 5 initLock
       = Outcome.ok (true, MXRecLockIncCount initLock 1 5, [NativeCall.tryAcquire]))
  ∧ (MXRecLockTryAcquire 16 5 { referenceCount := 2, nativeThreadID := 5 }
       = Outcome.ok (false, { referenceCount := 2, nativeThreadID := 5 },
           [NativeCall.tryAcquire]))
  ∧ (MXRecLockTryAcquire 22 5 initLock = Outcome.panicked) :=
  ⟨((MXRecLockTryAcquire_contract 0 5 initLock).1 rfl (by decide) (by decide)).1,
   (MXRecLockTryAcquire_contract 16 5 { referenceCount := 2, nativeThreadID := 5 }).2.1 rfl,
   (MXRecLockTryAcquire_contract 22 5 initLock).2.2 (by decide) (by decide)⟩

/-- Claim C7: `MXRecLockInit` returns success exactly when the native
create result is 0, and on success the lock has `referenceCount = 0`
and the no-owner sentinel as owner. -/
theorem MXRecLockInit_contract (createErr : Int) (lock : MXRecLock) :
    ((MXRecLockInit createErr lock).1 = true ↔ createErr = 0)
  ∧ (createErr = 0 →
      (MXRecLockInit createErr lock).2.referenceCount = 0
      ∧ (MXRecLockInit createErr lock).2.nativeThreadID = MXUSER_NO_OWNER) := by
  constructor
  · by_cases h : createErr = 0 <;> simp [MXRecLockInit, h]
  · intro h
    simp [MXRecLockInit, h, MXRecLockSetNoOwner]

/-- Witness for C7: a successful init of a dirty structure at a concrete
input. -/
theorem MXRecLockInit_contract_wit :
    ((MXRecLockInit 0 { referenceCount := 5, nativeThreadID := 7 }).1 = true)
  ∧ (MXRecLockInit 0 { referenceCount := 5, nativeThreadID := 7 }).2.referenceCount = 0
  ∧ (MXRecLockInit 0 { referenceCount := 5, nativeThreadID := 7 }).2.nativeThreadID
      = MXUSER_NO_OWNER :=
  ⟨(MXRecLockInit_contract 0 { referenceCount := 5, nativeThreadID := 7 }).1.mpr rfl,
   ((MXRecLockInit_contract 0 { referenceCount := 5, nativeThreadID := 7 }).2 rfl).1,
   ((MXRecLockInit_contract 0 { referenceCount := 5, nativeThreadID := 7 }).2 rfl).2⟩

/-- Claim C9: `MXRecLockTryAcquire` has no re-entrant fast path: when the
lock is already held by the calling thread (`referenceCount > 0`, owner
equal to the caller) and the non-recursive native mutex reports `EBUSY`,
it returns `false` leaving the state exactly unchanged — while
`MXRecLockAcquire` from the same state succeeds via the re-entrant path
without touching the native mutex. -/
theorem tryAcquire_no_reentrant_path (self : MXThreadID) (lock : MXRecLock)
    (h1 : 0 < MXRecLockCount lock) (h2 : MXRecLockCount lock < MXUSER_MAX_REC_DEPTH)
    (ho : lock.nativeThreadID = self) :
    MXRecLockTryAcquire EBUSY self lock
      = Outcome.ok (false, lock, [NativeCall.tryAcquire])
  ∧ MXRecLockAcquire EBUSY 1 self lock
      = Outcome.ok (false, { lock with referenceCount := lock.referenceCount + 1 }, []) :=
  ⟨tryAcquire_native_busy EBUSY self lock rfl,
   acquire_reentrant EBUSY 1 self lock h1 h2 ho⟩

/-- Witness for C9: the holder's try-acquire fails cleanly while its
acquire succeeds re-entrantly, at a concrete input. -/
theorem tryAcquire_no_reentrant_path_wit :
    (MXRecLockTryAcquire EBUSY 4 { referenceCount := 1, nativeThreadID := 4 }
       = Outcome.ok (false, { referenceCount := 1, nativeThreadID := 4 },
           [NativeCall.tryAcquire]))
  ∧ (MXRecLockAcquire EBUSY 1 4 { referenceCount := 1, nativeThreadID := 4 }
       = Outcome.ok (false, { referenceCount := 2, nativeThreadID := 4 }, [])) :=
  tryAcquire_no_reentrant_path 4 { referenceCount := 1, nativeThreadID := 4 }
    (by decide) (by decide) rfl

/-- Claim C10: when the native create fails, `MXRecLockInit` returns
failure and the portable fields of the structure are exactly the input
ones — no partial update. -/
theorem MXRecLockInit_failure_frame (createErr : Int) (lock : MXRecLock)
    (h : createErr ≠ 0) :
    MXRecLockInit createErr lock = (false, lock) := by
  simp [MXRecLockInit, h]

/-- Witness for C10: a failing init of a concrete dirty structure. -/
theorem MXRecLockInit_failure_frame_wit :
    MXRecLockInit 12 { referenceCount := 3, nativeThreadID := 8 }
      = (false, { referenceCount := 3, nativeThreadID := 8 }) :=
  MXRecLockInit_failure_frame 12 { referenceCount := 3, nativeThreadID := 8 } (by decide)

/-- Every acquisition of `acquireLoop` takes the re-entrant path: from a
state the calling thread already owns, `k` further acquisitions (with
hostile native results) succeed, add `k` to the count and never touch
the native mutex. -/
theorem acquireLoop_reentrant (self : MXThreadID) :
    ∀ (k : Nat) (lock : MXRecLock), lock.nativeThreadID = self →
      0 < lock.referenceCount → lock.referenceCount + k ≤ 16 →
      acquireLoop self k lock
        = Outcome.ok ({ lock with referenceCount := lock.referenceCount + k }, [])
  | 0, lock, _, _, _ => by
    simp [acquireLoop]
  | k + 1, lock, ho, h1, h2 => by
    have hk : ((k : Int) + 1) = ((k + 1 : Nat) : Int) := by push_cast; ring
    have h2' : lock.referenceCount + ((k + 1 : Nat) : Int) ≤ 16 := h2
    have hlt : MXRecLockCount lock < MXUSER_MAX_REC_DEPTH := by
      simp only [MXRecLockCount, MXUSER_MAX_REC_DEPTH]
      omega
    have hstep := acquire_reentrant EBUSY 1 self lock h1 hlt ho
    have hrec := acquireLoop_reentrant self k
      { lock with referenceCount := lock.referenceCount + 1 }
      (by simp [ho]) (by simp; omega) (by simp; omega)
    unfold acquireLoop
    rw [hstep]
    dsimp only
    rw [hrec]
    have harith : lock.referenceCount + 1 + (k : Int)
        = lock.referenceCount + ((k + 1 : Nat) : Int) := by push_cast; ring
    simp [harith]

/-- Releasing `k` times from a state with count exactly `k` (with a
well-behaved native release) brings the count to 0 and the owner to the
no-owner sentinel; only the last release touches the native mutex. -/
theorem releaseLoop_drain :
    ∀ (k : Nat) (lock : MXRecLock), lock.referenceCount = (k : Int) →
      0 < k → k < 16 →
      releaseLoop k lock
        = Outcome.ok ({ referenceCount := 0, nativeThreadID := MXUSER_NO_OWNER },
            [NativeCall.release])
  | 0, _, _, h0, _ => by omega
  | 1, lock, hc, _, _ => by
    have hstep := release_to_zero 0 lock (by simp [MXRecLockCount, hc]) rfl
    unfold releaseLoop
    rw [hstep]
    unfold releaseLoop
    simp
  | k + 2, lock, hc, _, hk => by
    have h1 : (1 : Int) < MXRecLockCount lock := by
      simp [MXRecLockCount, hc]; omega
    have hlt : MXRecLockCount lock < MXUSER_MAX_REC_DEPTH := by
      simp only [MXRecLockCount, MXUSER_MAX_REC_DEPTH, hc]
      omega
    have hstep := release_stays_positive 0 lock h1 hlt
    have hrec := releaseLoop_drain (k + 1)
      { lock with referenceCount := lock.referenceCount - 1 }
      (by simp [hc]; omega) (by omega) (by omega)
    unfold releaseLoop
    rw [hstep]
    dsimp only
    rw [hrec]
    simp

/-- Claim C2: for `0 < n < MXUSER_MAX_REC_DEPTH`, a thread acquiring a
freshly initialized lock `n` times and then releasing it `n` times never
blocks itself: every acquisition after the first takes the re-entrant
path (the loop feeds each of them hostile native results, so the `ok`
outcome and the trace — one native try-acquire at the start, one native
release at the end, and no blocking native acquire at all — certify it),
and after the `n`-th release the count is 0 and the owner is the
no-owner sentinel. -/
theorem recScenario_reentrance (self : MXThreadID) (n : Nat)
    (h1 : 0 < n) (h2 : n < 16) :
    recScenario self n
      = Outcome.ok ({ referenceCount := 0, nativeThreadID := MXUSER_NO_OWNER },
          [NativeCall.tryAcquire, NativeCall.release])
  ∧ MXRecLockCount { referenceCount := 0, nativeThreadID := MXUSER_NO_OWNER } = 0 := by
  refine ⟨?_, rfl⟩
  have hfirst := acquire_free_try_ok 0 1 self initLock rfl rfl
  have hloop := acquireLoop_reentrant self (n - 1)
    { referenceCount := 1, nativeThreadID := self } rfl (by norm_num)
    (by simp; omega)
  have hcast : (1 : Int) + ((n - 1 : Nat) : Int) = (n : Int) := by omega
  have hdrain := releaseLoop_drain n
    { referenceCount := (n : Int), nativeThreadID := self } rfl h1 h2
  unfold recScenario
  rw [hfirst]
  dsimp only
  rw [hloop]
  dsimp only
  rw [hcast, hdrain]
  dsimp only
  simp

/-- Witness for C2: the scenario at depth 3 for a concrete thread. -/
theorem recScenario_reentrance_wit :
    recScenario 2 3
      = Outcome.ok ({ referenceCount := 0, nativeThreadID := MXUSER_NO_OWNER },
          [NativeCall.tryAcquire, NativeCall.release])
  ∧ MXRecLockCount { referenceCount := 0, nativeThreadID := MXUSER_NO_OWNER } = 0 :=
  recScenario_reentrance 2 3 (by decide) (by decide)

/-- Claim C3 (code bug): the invariant `referenceCount < MXUSER_MAX_REC_DEPTH`
is not preserved by `MXRecLockAcquire`: starting from a freshly
initialized lock, 16 acquisitions by one thread all pass their
assertions and leave `referenceCount = 16 = MXUSER_MAX_REC_DEPTH`, a
state in which `MXRecLockRelease`'s own assertion fails, so the depth-16
lock can never be released — the acquire-side assertion contradicts the
release-side one. -/
theorem referenceCount_bound_violation :
    (MXRecLockAcquire 0 1 1 initLock
       = Outcome.ok (false, { referenceCount := 1, nativeThreadID := 1 },
           [NativeCall.tryAcquire]))
  ∧ (acquireLoop 1 15 { referenceCount := 1, nativeThreadID := 1 }
       = Outcome.ok ({ referenceCount := 16, nativeThreadID := 1 }, []))
  ∧ MXRecLockCount { referenceCount := 16, nativeThreadID := 1 } = MXUSER_MAX_REC_DEPTH
  ∧ (MXRecLockRelease 0 { referenceCount := 16, nativeThreadID := 1 }
       = Outcome.assertFailed) := by
  decide

/-- Claim C4 (code bug): the re-entrant assertion of `MXRecLockAcquire`
is checked before the increment, so the 16th nested acquisition
(pre-call count `MXUSER_MAX_REC_DEPTH - 1 = 15`) passes the assertion
and silently increments the count past the bound to 16; only the 17th
call (pre-call count 16) trips the assertion. -/
theorem depth_bound_off_by_one :
    (MXRecLockAcquire 16 1 1 { referenceCount := 15, nativeThreadID := 1 }
       = Outcome.ok (false, { referenceCount := 16, nativeThreadID := 1 }, []))
  ∧ (MXRecLockAcquire 16 1 1 { referenceCount := 16, nativeThreadID := 1 }
       = Outcome.assertFailed) := by
  decide

/-- One acquisition sample preserves the conservation inequalities. -/
theorem statsInv_step (s : MXUserAcquisitionStats) (a c : Bool) (t : Nat)
    (h : statsInv s) : statsInv (MXUserAcquisitionSample s a c t) := by
  obtain ⟨h1, h2, h3⟩ := h
  cases a <;> cases c <;>
    simp [MXUserAcquisitionSample, statsInv, MXUserBasicStatsSample] at * <;> omega

/-- Folding any sample sequence preserves the conservation inequalities. -/
theorem statsInv_runSamples :
    ∀ (l : List (Bool × Bool × Nat)) (s : MXUserAcquisitionStats),
      statsInv s → statsInv (runSamples s l)
  | [], _, h => h
  | (a, c, t) :: rest, s, h =>
    statsInv_runSamples rest (MXUserAcquisitionSample s a c t) (statsInv_step s a c t h)

/-- Claim C8: starting from zeroed `MXUserAcquisitionStats`, after any
sequence of `MXUserAcquisitionSample` calls,
`numAttempts ≥ numSuccesses ≥ numSuccessesContended ≥ 0` and
`successContentionTime ≤ totalContentionTime`. -/
theorem acquisitionStats_conservation (samples : List (Bool × Bool × Nat)) :
    (runSamples MXUserAcquisitionStatsSetUp samples).numSuccesses
        ≤ (runSamples MXUserAcquisitionStatsSetUp samples).numAttempts
  ∧ (runSamples MXUserAcquisitionStatsSetUp samples).numSuccessesContended
        ≤ (runSamples MXUserAcquisitionStatsSetUp samples).numSuccesses
  ∧ 0 ≤ (runSamples MXUserAcquisitionStatsSetUp samples).numSuccessesContended
  ∧ (runSamples MXUserAcquisitionStatsSetUp samples).successContentionTime
        ≤ (runSamples MXUserAcquisitionStatsSetUp samples).totalContentionTime := by
  have h := statsInv_runSamples samples MXUserAcquisitionStatsSetUp
    ⟨le_refl 0, le_refl 0, le_refl 0⟩
  exact ⟨h.1, h.2.1, Nat.zero_le _, h.2.2⟩
